import Mathlib

/-!
Formal model of the notifications-service pipeline.

The development embeds the three Lambda handlers of the repository
(`lambda_functions/event_processor/handler.py`,
`lambda_functions/sqs_consumer/handler.py`,
`lambda_functions/slack_notifier/handler.py`) as pure Lean functions.

Python values parsed from JSON are modelled by `JVal`; Python dicts by
association lists in insertion order (`Dict`); Python exceptions by
`Except String`; the ambient effects (environment variables, the Lambda
invoke client, the wall clock, `json.loads`) are passed in explicitly as
parameters.  String methods (`lower`, `upper`, `title`, `replace`,
substring `in`) are modelled for ASCII text, which is the alphabet the
handlers use.
-/

/-- A JSON-like Python value: the values that can appear in a parsed
event payload. Numbers are modelled as integers. -/
inductive JVal where
  | str (s : String)
  | num (n : Int)
  | bool (b : Bool)
  | null
  | arr (elems : List JVal)
  | obj (fields : List (String × JVal))

/-- A Python dict with string keys, in insertion order. -/
abbrev Dict := List (String × JVal)

/-- Python `d[k]` lookup as an option: first binding of the key. -/
def dget (d : Dict) (k : String) : Option JVal :=
  match d.find? (fun p => p.1 == k) with
  | some p => some p.2
  | none => none

/-- Python `d.get(k, default)`. -/
def dgetD (d : Dict) (k : String) (default : JVal) : JVal :=
  (dget d k).getD default

/-- Python `d.get(k)`: `None` when the key is absent. -/
def pyGet (d : Dict) (k : String) : JVal :=
  (dget d k).getD JVal.null

/-- Python truthiness of a value. -/
def truthy : JVal → Bool
  | JVal.str s => !(s == "")
  | JVal.num n => !(n == 0)
  | JVal.bool b => b
  | JVal.null => false
  | JVal.arr es => !es.isEmpty
  | JVal.obj fs => !fs.isEmpty

/-- Python `a or b` on values (truthiness-based short circuit). -/
def pyOr (a b : JVal) : JVal :=
  if truthy a then a else b

/-- Python `v in [s1, ..., sn]` where the list holds strings: true only
when `v` is a string equal to one of them. -/
def jvalInStrList (v : JVal) (ss : List String) : Bool :=
  match v with
  | JVal.str s => ss.contains s
  | _ => false

/-- Python `s.lower()` (ASCII). Defined on the character list so that
it computes by structural reduction. -/
def pyLower (s : String) : String :=
  String.mk (s.data.map Char.toLower)

/-- Python `s.upper()` (ASCII). -/
def pyUpper (s : String) : String :=
  String.mk (s.data.map Char.toUpper)

/-- Python `s.replace(a, b)` for single-character patterns. -/
def replaceChar (s : String) (a b : Char) : String :=
  String.mk (s.data.map (fun c => if c == a then b else c))

/-- Python `v.lower()`: succeeds on strings, raises `AttributeError`
otherwise. -/
def jLower : JVal → Except String String
  | JVal.str s => Except.ok (pyLower s)
  | _ => Except.error "AttributeError: lower"

/-- Python `v.upper()`: succeeds on strings, raises `AttributeError`
otherwise. -/
def jUpper : JVal → Except String String
  | JVal.str s => Except.ok (pyUpper s)
  | _ => Except.error "AttributeError: upper"

/-- Python `v.get(k)` on a value: dict lookup (with `None` default),
`AttributeError` when `v` is not a dict. -/
def jGet (v : JVal) (k : String) : Except String JVal :=
  match v with
  | JVal.obj fs => Except.ok (pyGet fs k)
  | _ => Except.error "AttributeError: get"

/-- Python `v.get(k, default)` on a value: dict lookup with default,
`AttributeError` when `v` is not a dict. -/
def jGetD (v : JVal) (k : String) (default : JVal) : Except String JVal :=
  match v with
  | JVal.obj fs => Except.ok (dgetD fs k default)
  | _ => Except.error "AttributeError: get"

/-- Helper for substring search: does `needle` occur in the haystack? -/
def substrAux (needle : List Char) : List Char → Bool
  | [] => needle.isEmpty
  | c :: cs => needle.isPrefixOf (c :: cs) || substrAux needle cs

/-- Python `needle in hay` on strings: substring containment. -/
def strContains (hay needle : String) : Bool :=
  substrAux needle.data hay.data

/-- Helper for Python `str.title()`: the boolean tracks whether the
previous character was alphabetic (i.e. inside a word). -/
def pyTitleAux : Bool → List Char → List Char
  | _, [] => []
  | prevAlpha, c :: cs =>
    (if c.isAlpha then (if prevAlpha then c.toLower else c.toUpper) else c)
      :: pyTitleAux c.isAlpha cs

/-- Python `s.title()` (ASCII): the first letter of every word is
uppercased and the remaining letters are lowercased. -/
def pyTitle (s : String) : String :=
  String.mk (pyTitleAux false s.data)

mutual
/-- Python `repr` of a value (as used by `str` on containers). String
escaping is elided: the handlers only ever stringify plain ASCII text. -/
def pyRepr : JVal → String
  | JVal.str s => "\x27" ++ s ++ "\x27"
  | JVal.num n => toString n
  | JVal.bool b => cond b "True" "False"
  | JVal.null => "None"
  | JVal.arr es => "[" ++ pyReprElems es ++ "]"
  | JVal.obj fs => "\x7b" ++ pyReprFields fs ++ "\x7d"

/-- Comma-separated reprs of list elements. -/
def pyReprElems : List JVal → String
  | [] => ""
  | [v] => pyRepr v
  | v :: vs => pyRepr v ++ ", " ++ pyReprElems vs

/-- Comma-separated reprs of dict entries. -/
def pyReprFields : List (String × JVal) → String
  | [] => ""
  | [(k, v)] => "\x27" ++ k ++ "\x27: " ++ pyRepr v
  | (k, v) :: fs => "\x27" ++ k ++ "\x27: " ++ pyRepr v ++ ", " ++ pyReprFields fs
end

/-- Python `str(v)`: the string itself for strings, `repr` otherwise. -/
def pyStr : JVal → String
  | JVal.str s => s
  | v => pyRepr v

/-- Whether an `Except` computation succeeded. -/
def isOkB {ε α : Type} : Except ε α → Bool
  | Except.ok _ => true
  | Except.error _ => false

namespace EventProcessor

/-- Embedding of `should_notify_slack` from
`lambda_functions/event_processor/handler.py` (lines 95-113):
forward when `detail.get("priority", "normal")` is (exactly) one of
`high`, `critical`, `urgent`, or when the detail-type is one of the
fixed notify types. -/
def should_notify_slack (detail : Dict) (detail_type : String) : Bool :=
  let priority := dgetD detail "priority" (JVal.str "normal")
  if jvalInStrList priority ["high", "critical", "urgent"] then
    true
  else
    ["Error", "Failure", "Payment Failed", "Security Alert"].contains detail_type

/-- Embedding of `process_event` from
`lambda_functions/event_processor/handler.py` (lines 60-92).
`processed_at` stands for `datetime.utcnow().isoformat()`, passed in
explicitly. -/
def process_event (detail : Dict) (source : String) (detail_type : String)
    (processed_at : String) : Dict :=
  let processing_result : Dict :=
    [("processed_at", JVal.str processed_at),
     ("source", JVal.str source),
     ("type", JVal.str detail_type)]
  if detail_type == "User Registered" then
    processing_result ++ [("action", JVal.str "send_welcome_email"),
                          ("user", pyGet detail "userId")]
  else if detail_type == "Order Created" then
    processing_result ++ [("action", JVal.str "process_order"),
                          ("order_id", pyGet detail "orderId")]
  else if detail_type == "Payment Failed" then
    processing_result ++ [("action", JVal.str "notify_support"),
                          ("amount", pyGet detail "amount")]
  else
    processing_result ++ [("action", JVal.str "log_event")]

/-- The forwarding rule exactly as the specification words it: priority
compared case-insensitively against high/critical/urgent, or an exact
detail-type match against the fixed set. -/
def classifierForwardSpec (detail : Dict) (detail_type : String) : Bool :=
  (match dget detail "priority" with
   | some (JVal.str s) => ["high", "critical", "urgent"].contains (pyLower s)
   | _ => false)
  || ["Error", "Failure", "Payment Failed", "Security Alert"].contains detail_type

/-- The forwarding rule as amended to the code: priority compared
case-sensitively (exact string match). -/
def classifierForwardAmended (detail : Dict) (detail_type : String) : Bool :=
  (match dget detail "priority" with
   | some (JVal.str s) => ["high", "critical", "urgent"].contains s
   | _ => false)
  || ["Error", "Failure", "Payment Failed", "Security Alert"].contains detail_type

end EventProcessor

/-- Claim C1, counterexample: the specification asks for a
case-insensitive priority comparison, but the classifier of the event
processor compares case-sensitively: with `detail.priority = "HIGH"` and
a non-notify type the code does not forward while the claimed rule
does. -/
theorem C1_counterexample :
    EventProcessor.should_notify_slack [("priority", JVal.str "HIGH")] "custom.event" = false
      ∧ EventProcessor.classifierForwardSpec [("priority", JVal.str "HIGH")] "custom.event" = true := by
  constructor
  · rfl
  · rfl

/-- Claim C1, amended: the Classifier forwards to chat iff
`detail.priority` is exactly (case-sensitively) one of high, critical,
urgent, or the detail-type exactly matches one of Error, Failure,
Payment Failed, Security Alert; an absent priority defaults to "normal",
so only the type rule can forward then. -/
theorem C1_theorem (detail : Dict) (detail_type : String) :
    EventProcessor.should_notify_slack detail detail_type
      = EventProcessor.classifierForwardAmended detail detail_type := by
  unfold EventProcessor.should_notify_slack EventProcessor.classifierForwardAmended
  unfold dgetD jvalInStrList
  cases h : dget detail "priority" with
  | none => simp
  | some v => cases v <;> simp

/-- Claim C7, counterexample: the claim says type "user-registered"
yields action "send_welcome_email", but the code matches the exact
string "User Registered"; on "user-registered" it falls through to
"log_event". -/
theorem C7_counterexample :
    dget (EventProcessor.process_event [] "custom.source" "user-registered" "2024-01-01T00:00:00")
        "action" = some (JVal.str "log_event")
      ∧ "log_event" ≠ "send_welcome_email" := by
  constructor
  · rfl
  · decide

/-- Claim C7, amended: the event processor attaches an action tag
inferred from the exact detail-type: "User Registered" yields
"send_welcome_email", "Order Created" yields "process_order",
"Payment Failed" yields "notify_support", and any other type yields
"log_event". -/
theorem C7_theorem (detail : Dict) (source detail_type processed_at : String) :
    dget (EventProcessor.process_event detail source detail_type processed_at) "action"
      = some (JVal.str
          (if detail_type == "User Registered" then "send_welcome_email"
           else if detail_type == "Order Created" then "process_order"
           else if detail_type == "Payment Failed" then "notify_support"
           else "log_event")) := by
  unfold EventProcessor.process_event
  by_cases h1 : detail_type = "User Registered"
  · subst h1; rfl
  by_cases h2 : detail_type = "Order Created"
  · subst h2; rfl
  by_cases h3 : detail_type = "Payment Failed"
  · subst h3; rfl
  simp only [beq_iff_eq, h1, h2, h3, if_false, ite_false]
  rfl

namespace SlackNotifier

/-- One entry of the `fields` list of a Slack attachment. The code
stores the timestamp value unstringified, so `value` is a `JVal`. -/
structure SlackField where
  title : String
  value : JVal
  short : Bool

/-- The ASCII underscore character. -/
def underscoreChar : Char := Char.ofNat 95

/-- The ASCII space character. -/
def spaceChar : Char := Char.ofNat 32

/-- Python `key.startswith("_")`. -/
def startsWithUnderscore (s : String) : Bool :=
  match s.data with
  | [] => false
  | c :: _ => c == underscoreChar

/-- The field-title transform of the code:
`key.replace("_", " ").title()`. -/
def field_name_of (k : String) : String :=
  pyTitle (replaceChar k underscoreChar spaceChar)

/-- Embedding of `get_message_color` from
`lambda_functions/slack_notifier/handler.py` (lines 108-128). The
`.lower()` call on a non-string priority raises, which the `Except`
propagates. -/
def get_message_color (detail : Dict) (detail_type : String) : Except String String :=
  match jLower (dgetD detail "priority" (JVal.str "normal")) with
  | Except.error e => Except.error e
  | Except.ok priority =>
    if ["critical", "urgent"].contains priority then
      Except.ok "danger"
    else if priority == "high" then
      Except.ok "warning"
    else if ["error", "failure", "failed"].any (fun w => strContains (pyLower detail_type) w) then
      Except.ok "danger"
    else if ["warning", "alert"].any (fun w => strContains (pyLower detail_type) w) then
      Except.ok "warning"
    else if ["success", "completed"].any (fun w => strContains (pyLower detail_type) w) then
      Except.ok "good"
    else
      Except.ok "#36a64f"

/-- The excluded detail keys of `build_fields`. -/
def excluded_keys : List String := ["message", "priority", "timestamp"]

/-- Embedding of `build_fields` from
`lambda_functions/slack_notifier/handler.py` (lines 131-178). The
`for key, value in detail.items()` loop is rendered as filter-then-map
over the insertion-ordered entries; `str(value) if not isinstance(value,
str) else value` is `pyStr`. -/
def build_fields (detail : Dict) (source : String) : Except String (List SlackField) :=
  let fields0 : List SlackField := [⟨"Source", JVal.str source, true⟩]
  let priority := pyGet detail "priority"
  match (if truthy priority then
           match jUpper priority with
           | Except.error e => Except.error e
           | Except.ok p => Except.ok (fields0 ++ [⟨"Priority", JVal.str p, true⟩])
         else Except.ok fields0) with
  | Except.error e => Except.error e
  | Except.ok fields1 =>
    let timestamp := pyGet detail "timestamp"
    let fields2 :=
      if truthy timestamp then fields1 ++ [⟨"Timestamp", timestamp, true⟩] else fields1
    Except.ok (fields2 ++
      (detail.filter (fun p => !(excluded_keys.contains p.1) && !(startsWithUnderscore p.1))).map
        (fun p =>
          let field_value := pyStr p.2
          ⟨field_name_of p.1, JVal.str field_value, decide (field_value.length < 40)⟩))

/-- The raw HTTP response of the webhook endpoint, passed in as data. -/
structure HttpResponse where
  status : Nat
  data : String

/-- The success return value of `send_to_slack`. -/
structure SendResult where
  status : Nat
  response : String
deriving DecidableEq

/-- Embedding of `send_to_slack` from
`lambda_functions/slack_notifier/handler.py` (lines 181-202): raise on
any status other than 200, otherwise return status and raw body. -/
def send_to_slack (resp : HttpResponse) : Except String SendResult :=
  if resp.status != 200 then
    Except.error ("Slack API error: " ++ toString resp.status ++ " - " ++ resp.data)
  else
    Except.ok ⟨resp.status, resp.data⟩

/-- Color selection exactly as the specification lists it: six rules,
first match wins, priority rules before type-keyword rules. -/
def colorSpec (detail : Dict) (detail_type : String) : String :=
  let priority :=
    match dget detail "priority" with
    | some (JVal.str s) => pyLower s
    | _ => "normal"
  if priority == "critical" || priority == "urgent" then "danger"
  else if priority == "high" then "warning"
  else if strContains (pyLower detail_type) "error"
          || strContains (pyLower detail_type) "failure"
          || strContains (pyLower detail_type) "failed" then "danger"
  else if strContains (pyLower detail_type) "warning"
          || strContains (pyLower detail_type) "alert" then "warning"
  else if strContains (pyLower detail_type) "success"
          || strContains (pyLower detail_type) "completed" then "good"
  else "#36a64f"

/-- Side condition: the priority entry, when present, is a string (the
formatter calls `.lower()` on it). -/
def priorityIsStrOrAbsent (d : Dict) : Bool :=
  match dget d "priority" with
  | some (JVal.str _) => true
  | some _ => false
  | none => true

/-- Side condition for `build_fields`: a truthy priority entry is a
string (the code calls `.upper()` only on truthy priorities). -/
def priorityStringIfTruthy (d : Dict) : Bool :=
  match dget d "priority" with
  | some (JVal.str _) => true
  | some v => !truthy v
  | none => true

/-- The Priority segment of the claimed field list. -/
def prioritySeg (detail : Dict) : List SlackField :=
  match pyGet detail "priority" with
  | JVal.str s => if s == "" then [] else [⟨"Priority", JVal.str (pyUpper s), true⟩]
  | _ => []

/-- The Timestamp segment of the claimed field list. -/
def timestampSeg (detail : Dict) : List SlackField :=
  if truthy (pyGet detail "timestamp") then [⟨"Timestamp", pyGet detail "timestamp", true⟩]
  else []

/-- The detail entries that produce custom fields: keys outside
message/priority/timestamp that do not start with an underscore. -/
def filteredDetail (detail : Dict) : Dict :=
  detail.filter (fun p => !(excluded_keys.contains p.1) && !(startsWithUnderscore p.1))

/-- The custom-field segment of the claimed field list. -/
def customFields (detail : Dict) : List SlackField :=
  (filteredDetail detail).map
    (fun p => ⟨field_name_of p.1, JVal.str (pyStr p.2), decide ((pyStr p.2).length < 40)⟩)

/-- The non-excluded keys with their stringified values, in insertion
order. -/
def nonExcludedStrPairs (detail : Dict) : List (String × String) :=
  (filteredDetail detail).map (fun p => (p.1, pyStr p.2))

end SlackNotifier

/-- Helper: `build_fields` evaluates to the four claimed segments in
order whenever a truthy priority entry is a string. -/
theorem build_fields_eq (detail : Dict) (source : String)
    (h : SlackNotifier.priorityStringIfTruthy detail = true) :
    SlackNotifier.build_fields detail source
      = Except.ok ([⟨"Source", JVal.str source, true⟩]
          ++ SlackNotifier.prioritySeg detail
          ++ SlackNotifier.timestampSeg detail
          ++ SlackNotifier.customFields detail) := by
  unfold SlackNotifier.build_fields SlackNotifier.prioritySeg SlackNotifier.timestampSeg
  unfold SlackNotifier.priorityStringIfTruthy at h
  unfold SlackNotifier.customFields SlackNotifier.filteredDetail
  cases hp : dget detail "priority" with
  | none =>
    simp only [pyGet, hp, Option.getD, truthy, Bool.false_eq_true, if_false]
    split <;> simp
  | some v =>
    rw [hp] at h
    cases v with
    | str s =>
      by_cases hs : s = ""
      · subst hs
        simp only [pyGet, hp, Option.getD, truthy]
        simp only [show (("" : String) == "") = true from rfl, Bool.not_true,
          Bool.false_eq_true, if_false]
        split <;> simp
      · have hb : (s == "") = false := by simp [hs]
        simp only [pyGet, hp, Option.getD, truthy, hb, Bool.not_false, if_true, jUpper, hs,
          if_false]
        split <;> simp
    | num n =>
      rw [Bool.not_eq_true'] at h
      simp only [pyGet, hp, Option.getD, h, Bool.false_eq_true, if_false]
      split <;> simp
    | bool b =>
      rw [Bool.not_eq_true'] at h
      simp only [pyGet, hp, Option.getD, h, Bool.false_eq_true, if_false]
      split <;> simp
    | null =>
      simp only [pyGet, hp, Option.getD, truthy, Bool.false_eq_true, if_false]
      split <;> simp
    | arr es =>
      rw [Bool.not_eq_true'] at h
      simp only [pyGet, hp, Option.getD, h, Bool.false_eq_true, if_false]
      split <;> simp
    | obj fs =>
      rw [Bool.not_eq_true'] at h
      simp only [pyGet, hp, Option.getD, h, Bool.false_eq_true, if_false]
      split <;> simp

/-- Claim C5: the Formatter color is chosen by the first matching rule
in the fixed order of the specification (priority critical/urgent, then
priority high, then the three type-keyword rules, then the neutral
default), provided the priority entry, when present, is a string (the
code calls `.lower()` on it and raises otherwise). -/
theorem C5_theorem (detail : Dict) (detail_type : String)
    (h : SlackNotifier.priorityIsStrOrAbsent detail = true) :
    SlackNotifier.get_message_color detail detail_type
      = Except.ok (SlackNotifier.colorSpec detail detail_type) := by
  unfold SlackNotifier.get_message_color SlackNotifier.colorSpec
  unfold SlackNotifier.priorityIsStrOrAbsent at h
  cases hp : dget detail "priority" with
  | none =>
    have hn : pyLower "normal" = "normal" := rfl
    simp only [dgetD, hp, Option.getD, jLower, hn]
    simp [List.contains, List.elem_eq_mem, or_assoc, apply_ite Except.ok,
      show "normal" ≠ "critical" by decide, show "normal" ≠ "urgent" by decide,
      show "normal" ≠ "high" by decide]
  | some v =>
    rw [hp] at h
    cases v with
    | str s =>
      simp only [dgetD, hp, Option.getD, jLower]
      simp [List.contains, List.elem_eq_mem, or_assoc, apply_ite Except.ok]
    | num n => simp at h
    | bool b => simp at h
    | null => simp at h
    | arr es => simp at h
    | obj fs => simp at h

/-- Claim C5 witness: priority "critical" with type "Success" yields
"danger", not "good". -/
theorem C5_witness :
    SlackNotifier.priorityIsStrOrAbsent [("priority", JVal.str "critical")] = true
      ∧ SlackNotifier.get_message_color [("priority", JVal.str "critical")] "Success"
          = Except.ok "danger" :=
  ⟨rfl, (C5_theorem [("priority", JVal.str "critical")] "Success" rfl).trans rfl⟩

/-- Claim C6: the Formatter emits, in order, a Source field, a Priority
field (uppercased value) exactly when a truthy priority is present, a
Timestamp field exactly when a truthy timestamp is present, and then one
field per remaining non-excluded, non-underscore key in insertion order,
with the title transform `replace("_", " ").title()`, stringified value,
and short flag true iff the stringified value has fewer than 40
characters. -/
theorem C6_theorem (detail : Dict) (source : String)
    (h : SlackNotifier.priorityStringIfTruthy detail = true) :
    SlackNotifier.build_fields detail source
      = Except.ok ([⟨"Source", JVal.str source, true⟩]
          ++ SlackNotifier.prioritySeg detail
          ++ SlackNotifier.timestampSeg detail
          ++ SlackNotifier.customFields detail) :=
  build_fields_eq detail source h

/-- Claim C6 witness: a full run with a 39-character value (short) and
a 40-character value (not short), an excluded message key, and an
underscore-prefixed key. -/
theorem C6_witness :
    SlackNotifier.priorityStringIfTruthy
        [("message", JVal.str "deploy finished"),
         ("priority", JVal.str "high"),
         ("timestamp", JVal.str "2024-01-01T00:00:00Z"),
         ("region", JVal.str "us-east-1"),
         ("_private", JVal.str "hidden"),
         ("request_id", JVal.str "abcdefghijklmnopqrstuvwxyz0123456789abc"),
         ("long_description", JVal.str "abcdefghijklmnopqrstuvwxyz0123456789abcd")] = true
      ∧ SlackNotifier.build_fields
          [("message", JVal.str "deploy finished"),
           ("priority", JVal.str "high"),
           ("timestamp", JVal.str "2024-01-01T00:00:00Z"),
           ("region", JVal.str "us-east-1"),
           ("_private", JVal.str "hidden"),
           ("request_id", JVal.str "abcdefghijklmnopqrstuvwxyz0123456789abc"),
           ("long_description", JVal.str "abcdefghijklmnopqrstuvwxyz0123456789abcd")]
          "custom.notifications"
        = Except.ok
            [⟨"Source", JVal.str "custom.notifications", true⟩,
             ⟨"Priority", JVal.str "HIGH", true⟩,
             ⟨"Timestamp", JVal.str "2024-01-01T00:00:00Z", true⟩,
             ⟨"Region", JVal.str "us-east-1", true⟩,
             ⟨"Request Id", JVal.str "abcdefghijklmnopqrstuvwxyz0123456789abc", true⟩,
             ⟨"Long Description", JVal.str "abcdefghijklmnopqrstuvwxyz0123456789abcd", false⟩] :=
  ⟨rfl,
   (C6_theorem
      [("message", JVal.str "deploy finished"),
       ("priority", JVal.str "high"),
       ("timestamp", JVal.str "2024-01-01T00:00:00Z"),
       ("region", JVal.str "us-east-1"),
       ("_private", JVal.str "hidden"),
       ("request_id", JVal.str "abcdefghijklmnopqrstuvwxyz0123456789abc"),
       ("long_description", JVal.str "abcdefghijklmnopqrstuvwxyz0123456789abcd")]
      "custom.notifications" rfl).trans rfl⟩

/-- Claim C8: the Chat Sender returns the status and raw body exactly
when the endpoint answers 200, and raises a delivery error carrying the
status and body for any other status; the model performs a single call,
so no retry is possible. -/
theorem C8_theorem (resp : SlackNotifier.HttpResponse) :
    (resp.status = 200 →
        SlackNotifier.send_to_slack resp = Except.ok ⟨200, resp.data⟩)
      ∧ (resp.status ≠ 200 →
          SlackNotifier.send_to_slack resp
            = Except.error ("Slack API error: " ++ toString resp.status ++ " - " ++ resp.data))
      ∧ isOkB (SlackNotifier.send_to_slack resp) = (resp.status == 200) := by
  unfold SlackNotifier.send_to_slack
  by_cases h : resp.status = 200 <;> simp [h, isOkB, bne]

/-- Claim C8 witness: a 500 response raises the delivery error with
status and body. -/
theorem C8_witness :
    SlackNotifier.send_to_slack ⟨500, "server_error"⟩
      = Except.error "Slack API error: 500 - server_error" :=
  ((C8_theorem ⟨500, "server_error"⟩).2.1 (by decide)).trans rfl

namespace SlackNotifier

/-- The inverse of the field-title transform, used by the re-parser:
lowercase the title and turn spaces back into underscores. -/
def normKey (t : String) : String :=
  replaceChar (pyLower t) spaceChar underscoreChar

/-- Drop the standard prefix of a field list: the leading Source field,
then an optional Priority field, then an optional Timestamp field. -/
def dropStd (fields : List SlackField) : List SlackField :=
  let rest := fields.drop 1
  let rest2 :=
    match rest with
    | f :: t => if f.title == "Priority" then t else rest
    | [] => []
  match rest2 with
  | f :: t => if f.title == "Timestamp" then t else rest2
  | [] => []

/-- One re-parsed entry: normalized title and stringified value. -/
def parseEntry (f : SlackField) : String × String :=
  (normKey f.title, pyStr f.value)

/-- Modelled from the spec: the repository contains no re-parser for
chat-message fields; section 8 of the specification demands that
formatting then re-parsing a Chat Message must recover the same set of
non-excluded detail keys and stringified values. The natural re-parser
drops the standard Source/Priority/Timestamp prefix and inverts the
title transform of each remaining field. -/
def parse_fields (fields : List SlackField) : List (String × String) :=
  (dropStd fields).map parseEntry

end SlackNotifier

/-- Helper: the possible shapes of the Priority segment. -/
theorem prioritySeg_shape (detail : Dict) :
    SlackNotifier.prioritySeg detail = []
      ∨ ∃ s, SlackNotifier.prioritySeg detail
          = [⟨"Priority", JVal.str (pyUpper s), true⟩] := by
  unfold SlackNotifier.prioritySeg
  cases pyGet detail "priority" with
  | str s =>
    by_cases hs : s = ""
    · left; simp [hs]
    · right; exact ⟨s, by simp [hs]⟩
  | num n => left; rfl
  | bool b => left; rfl
  | null => left; rfl
  | arr es => left; rfl
  | obj fs => left; rfl

/-- Helper: the possible shapes of the Timestamp segment. -/
theorem timestampSeg_shape (detail : Dict) :
    SlackNotifier.timestampSeg detail = []
      ∨ ∃ v, SlackNotifier.timestampSeg detail = [⟨"Timestamp", v, true⟩] := by
  unfold SlackNotifier.timestampSeg
  split
  · right; exact ⟨pyGet detail "timestamp", rfl⟩
  · left; rfl

/-- Helper: under key-normalization invertibility, no custom field is
titled Priority or Timestamp (those titles could only come from the
excluded keys "priority" and "timestamp"). -/
theorem customFields_title_not_std (detail : Dict)
    (h2 : ∀ p ∈ SlackNotifier.filteredDetail detail,
        SlackNotifier.normKey (SlackNotifier.field_name_of p.1) = p.1) :
    ∀ f ∈ SlackNotifier.customFields detail,
      f.title ≠ "Priority" ∧ f.title ≠ "Timestamp" := by
  intro f hf
  unfold SlackNotifier.customFields at hf
  rcases List.mem_map.mp hf with ⟨p, hp, rfl⟩
  have hnorm := h2 p hp
  have hpred := (List.mem_filter.mp hp).2
  constructor
  · intro ht
    simp only at ht
    rw [ht] at hnorm
    have hk : p.1 = "priority" := by rw [← hnorm]; rfl
    rw [hk] at hpred
    exact absurd hpred (by decide)
  · intro ht
    simp only at ht
    rw [ht] at hnorm
    have hk : p.1 = "timestamp" := by rw [← hnorm]; rfl
    rw [hk] at hpred
    exact absurd hpred (by decide)

/-- Helper: re-parsing the custom fields recovers the non-excluded keys
and stringified values, when every such key is fixed by the
normalization. -/
theorem parse_customFields (detail : Dict)
    (h2 : ∀ p ∈ SlackNotifier.filteredDetail detail,
        SlackNotifier.normKey (SlackNotifier.field_name_of p.1) = p.1) :
    (SlackNotifier.customFields detail).map SlackNotifier.parseEntry
      = SlackNotifier.nonExcludedStrPairs detail := by
  unfold SlackNotifier.customFields SlackNotifier.nonExcludedStrPairs
  rw [List.map_map]
  apply List.map_congr_left
  intro p hp
  simp only [Function.comp, SlackNotifier.parseEntry, pyStr]
  rw [h2 p hp]

/-- Claim C9, counterexample: the field-title transform is not
injective, so formatting loses the original key. The details
with key "Region" and with key "region" format to identical field
lists although their non-excluded key/value sets differ; in
particular the re-parser returns "region" for both. -/
theorem C9_counterexample :
    SlackNotifier.build_fields [("Region", JVal.str "x")] "svc"
        = SlackNotifier.build_fields [("region", JVal.str "x")] "svc"
      ∧ SlackNotifier.nonExcludedStrPairs [("Region", JVal.str "x")]
          ≠ SlackNotifier.nonExcludedStrPairs [("region", JVal.str "x")]
      ∧ (SlackNotifier.build_fields [("Region", JVal.str "x")] "svc").map
            SlackNotifier.parse_fields
          = Except.ok [("region", "x")] :=
  ⟨rfl, by decide, rfl⟩

/-- Claim C9, amended: formatting then re-parsing recovers exactly the
non-excluded detail keys with their stringified values, in insertion
order, provided every non-excluded key is fixed by the lowercase,
space-to-underscore normalization (for example lowercase snake_case
keys); a truthy priority entry must be a string for formatting to
succeed at all. -/
theorem C9_theorem (detail : Dict) (source : String)
    (h1 : SlackNotifier.priorityStringIfTruthy detail = true)
    (h2 : ∀ p ∈ SlackNotifier.filteredDetail detail,
        SlackNotifier.normKey (SlackNotifier.field_name_of p.1) = p.1) :
    (SlackNotifier.build_fields detail source).map SlackNotifier.parse_fields
      = Except.ok (SlackNotifier.nonExcludedStrPairs detail) := by
  rw [build_fields_eq detail source h1]
  have hcustom := parse_customFields detail h2
  have hhead := customFields_title_not_std detail h2
  simp only [Except.map]
  congr 1
  unfold SlackNotifier.parse_fields SlackNotifier.dropStd
  rcases prioritySeg_shape detail with hP | ⟨s, hP⟩ <;>
    rcases timestampSeg_shape detail with hT | ⟨v, hT⟩ <;>
    rw [hP, hT] <;>
    simp only [List.nil_append, List.singleton_append, List.append_nil, List.cons_append,
      List.drop_succ_cons, List.drop_zero]
  · cases hc : SlackNotifier.customFields detail with
    | nil => simpa [hc] using hcustom
    | cons f t =>
      have hne := hhead f (by rw [hc]; exact List.mem_cons_self f t)
      rw [hc] at hcustom
      simp [hne.1, hne.2, hcustom]
  · simp only [show ("Timestamp" == "Priority") = false by decide, if_false,
      show ("Timestamp" == "Timestamp") = true by decide, if_true]
    exact hcustom
  · cases hc : SlackNotifier.customFields detail with
    | nil => simpa [hc] using hcustom
    | cons f t =>
      have hne := hhead f (by rw [hc]; exact List.mem_cons_self f t)
      rw [hc] at hcustom
      simp [hne.1, hne.2, hcustom]
  · simp only [show ("Priority" == "Priority") = true by decide, if_true,
      show ("Timestamp" == "Timestamp") = true by decide]
    exact hcustom

/-- Claim C9 witness: a detail with snake_case keys round-trips through
formatting and re-parsing. -/
theorem C9_witness :
    (SlackNotifier.build_fields
        [("message", JVal.str "order placed"),
         ("priority", JVal.str "high"),
         ("order_id", JVal.num 7),
         ("customer_region", JVal.str "us-east-1")] "orders").map
        SlackNotifier.parse_fields
      = Except.ok [("order_id", "7"), ("customer_region", "us-east-1")] :=
  (C9_theorem
      [("message", JVal.str "order placed"),
       ("priority", JVal.str "high"),
       ("order_id", JVal.num 7),
       ("customer_region", JVal.str "us-east-1")] "orders" rfl (by decide)).trans rfl

namespace SqsConsumer

/-- An SQS queue record: message id and raw body. -/
structure SQSRecord where
  messageId : String
  body : String

/-- The ambient effects of the consumer: the optional notifier ARN of
the environment, the wall-clock time string, and the Lambda invoke
client (it returns a status code or raises a transport error). -/
structure SqsEnv where
  slack_notifier_arn : Option String
  now : String
  invoke : String → JVal → Except String Nat

/-- Embedding of `extract_notification_details` from
`lambda_functions/sqs_consumer/handler.py` (lines 111-131). For any
non-dict payload the Python code raises (membership on a number is a
TypeError, `.get` on a string or list an AttributeError), collapsed
here into one error; `"detail" in message_data` is key membership and
`timestamp or time` uses truthiness. `env.now` stands for
`datetime.now(timezone.utc).isoformat()`. -/
def extract_notification_details (env : SqsEnv) (message_data : JVal) :
    Except String Dict :=
  match message_data with
  | JVal.obj fs =>
    if (dget fs "detail").isSome then
      Except.ok
        [("type", dgetD fs "detail-type" (JVal.str "unknown")),
         ("source", dgetD fs "source" (JVal.str "unknown")),
         ("timestamp", pyOr (pyGet fs "timestamp") (pyGet fs "time")),
         ("details", dgetD fs "detail" (JVal.obj []))]
    else
      Except.ok
        [("type", dgetD fs "type" (JVal.str "notification")),
         ("source", dgetD fs "source" (JVal.str "sqs")),
         ("timestamp", dgetD fs "timestamp" (JVal.str env.now)),
         ("details", message_data)]
  | _ => Except.error "TypeError: message_data is not a dict"

/-- Embedding of `handle_user_registration` (lines 160-175). Python
evaluates the second `.get` of `userId or user_id` only when the first
is falsy; both raise or both succeed on the same value, so sequential
evaluation is behaviorally identical. -/
def handle_user_registration (details : JVal) : Except String Dict :=
  match jGet details "userId" with
  | Except.error e => Except.error e
  | Except.ok u1 =>
    match jGet details "user_id" with
    | Except.error e => Except.error e
    | Except.ok u2 =>
      match jGet details "email" with
      | Except.error e => Except.error e
      | Except.ok email =>
        Except.ok
          [("action", JVal.str "user_registered"),
           ("user_id", pyOr u1 u2),
           ("email", email),
           ("status", JVal.str "processed")]

/-- Embedding of `handle_order_notification` (lines 178-191). -/
def handle_order_notification (details : JVal) : Except String Dict :=
  match jGet details "orderId" with
  | Except.error e => Except.error e
  | Except.ok o1 =>
    match jGet details "order_id" with
    | Except.error e => Except.error e
    | Except.ok o2 =>
      Except.ok
        [("action", JVal.str "order_processed"),
         ("order_id", pyOr o1 o2),
         ("status", JVal.str "processed")]

/-- Embedding of `handle_payment_notification` (lines 194-209). -/
def handle_payment_notification (details : JVal) : Except String Dict :=
  match jGet details "paymentId" with
  | Except.error e => Except.error e
  | Except.ok p1 =>
    match jGet details "payment_id" with
    | Except.error e => Except.error e
    | Except.ok p2 =>
      match jGet details "amount" with
      | Except.error e => Except.error e
      | Except.ok amount =>
        Except.ok
          [("action", JVal.str "payment_processed"),
           ("payment_id", pyOr p1 p2),
           ("amount", amount),
           ("status", JVal.str "processed")]

/-- Embedding of `handle_error_notification` (lines 212-225). -/
def handle_error_notification (details : JVal) : Except String Dict :=
  match jGet details "message" with
  | Except.error e => Except.error e
  | Except.ok m =>
    match jGet details "error" with
    | Except.error e => Except.error e
    | Except.ok err =>
      Except.ok
        [("action", JVal.str "error_logged"),
         ("error", pyOr m err),
         ("status", JVal.str "processed")]

/-- Embedding of `handle_generic_notification` (lines 228-237). -/
def handle_generic_notification (_details : JVal) : Except String Dict :=
  Except.ok
    [("action", JVal.str "generic_processed"),
     ("status", JVal.str "processed")]

/-- Embedding of `handle_notification` (lines 134-157): lowercase the
type (raising on a non-string), then route by substring matching. -/
def handle_notification (notification : Dict) : Except String Dict :=
  match jLower (dgetD notification "type" (JVal.str "")) with
  | Except.error e => Except.error e
  | Except.ok notification_type =>
    let details := dgetD notification "details" (JVal.obj [])
    if strContains notification_type "user" && strContains notification_type "registered" then
      handle_user_registration details
    else if strContains notification_type "order" then
      handle_order_notification details
    else if strContains notification_type "payment" then
      handle_payment_notification details
    else if strContains notification_type "error" || strContains notification_type "failure" then
      handle_error_notification details
    else
      handle_generic_notification details

/-- Embedding of `should_notify_slack` from
`lambda_functions/sqs_consumer/handler.py` (lines 240-256): forward on
lowercased priority in high/critical/urgent, or on the lowercased type
containing error, failure or alert. -/
def should_notify_slack (notification : Dict) : Except String Bool :=
  let details := dgetD notification "details" (JVal.obj [])
  match jLower (dgetD notification "type" (JVal.str "")) with
  | Except.error e => Except.error e
  | Except.ok notification_type =>
    match jGetD details "priority" (JVal.str "normal") with
    | Except.error e => Except.error e
    | Except.ok pv =>
      match jLower pv with
      | Except.error e => Except.error e
      | Except.ok priority =>
        if ["high", "critical", "urgent"].contains priority then
          Except.ok true
        else if ["error", "failure", "alert"].any
            (fun w => strContains notification_type w) then
          Except.ok true
        else
          Except.ok false

/-- Embedding of `invoke_slack_notifier` (lines 259-286): skip when the
ARN is not configured, and catch any invoke failure — the comment in
the source says Slack failures must not fail message processing. -/
def invoke_slack_notifier (env : SqsEnv) (notification : Dict) : Except String Unit :=
  match env.slack_notifier_arn with
  | none => Except.ok ()
  | some arn =>
    match env.invoke arn (JVal.obj
        [("source", dgetD notification "source" (JVal.str "custom.notifications")),
         ("detail-type", dgetD notification "type" (JVal.str "Notification")),
         ("detail", dgetD notification "details" (JVal.obj []))]) with
    | Except.ok _ => Except.ok ()
    | Except.error _ => Except.ok ()

/-- Embedding of `process_message` (lines 78-108): decode the body
(falling back to a raw-message wrapper), extract, handle, and
conditionally invoke the Slack notifier. `jsonLoads` models
`json.loads`, returning `none` on a decode error. -/
def process_message (jsonLoads : String → Option JVal) (env : SqsEnv)
    (record : SQSRecord) : Except String Dict :=
  let message_data :=
    match jsonLoads record.body with
    | some v => v
    | none => JVal.obj [("raw_message", JVal.str record.body)]
  match extract_notification_details env message_data with
  | Except.error e => Except.error e
  | Except.ok notification =>
    match handle_notification notification with
    | Except.error e => Except.error e
    | Except.ok result =>
      match should_notify_slack notification with
      | Except.error e => Except.error e
      | Except.ok b =>
        match (if b then invoke_slack_notifier env notification else Except.ok ()) with
        | Except.error e => Except.error e
        | Except.ok _ =>
          Except.ok
            [("messageId", JVal.str record.messageId),
             ("processed_at", JVal.str env.now),
             ("notification_type", dgetD notification "type" (JVal.str "unknown")),
             ("result", JVal.obj result)]

/-- The observable outcome of a batch invocation: the status code, the
counts and message lists of the body, and the partial-batch failure
list (absent when nothing failed). -/
structure BatchResponse where
  statusCode : Nat
  processed : Nat
  failed : Nat
  successful_messages : List (String × Dict)
  failed_messages : List (String × String)
  batchItemFailures : Option (List String)

/-- The per-record loop of `lambda_handler` (lines 39-53): process each
record, collecting successes and failures in input order; an exception
from `process_message` is caught and recorded, never re-raised. -/
def processRecords (proc : SQSRecord → Except String Dict) :
    List SQSRecord → List (String × Dict) × List (String × String)
  | [] => ([], [])
  | r :: rs =>
    let rest := processRecords proc rs
    match proc r with
    | Except.ok result => ((r.messageId, result) :: rest.1, rest.2)
    | Except.error e => (rest.1, (r.messageId, e) :: rest.2)

/-- Embedding of `lambda_handler` from
`lambda_functions/sqs_consumer/handler.py` (lines 18-75). -/
def lambda_handler (jsonLoads : String → Option JVal) (env : SqsEnv)
    (records : List SQSRecord) : BatchResponse :=
  let res := processRecords (process_message jsonLoads env) records
  { statusCode := if res.2.isEmpty then 200 else 207,
    processed := res.1.length,
    failed := res.2.length,
    successful_messages := res.1,
    failed_messages := res.2,
    batchItemFailures :=
      if res.2.isEmpty then none
      else some (res.2.map Prod.fst) }

end SqsConsumer

/-- Helper: the successes of the batch loop are exactly the records
whose processing succeeded, in input order. -/
theorem processRecords_fst_map (proc : SqsConsumer.SQSRecord → Except String Dict)
    (rs : List SqsConsumer.SQSRecord) :
    (SqsConsumer.processRecords proc rs).1.map Prod.fst
      = (rs.filter (fun r => isOkB (proc r))).map SqsConsumer.SQSRecord.messageId := by
  induction rs with
  | nil => rfl
  | cons r rs ih =>
    unfold SqsConsumer.processRecords
    cases hr : proc r <;> simp [List.filter_cons, hr, isOkB, ih]

/-- Helper: the failures of the batch loop are exactly the records
whose processing raised, in input order. -/
theorem processRecords_snd_map (proc : SqsConsumer.SQSRecord → Except String Dict)
    (rs : List SqsConsumer.SQSRecord) :
    (SqsConsumer.processRecords proc rs).2.map Prod.fst
      = (rs.filter (fun r => !isOkB (proc r))).map SqsConsumer.SQSRecord.messageId := by
  induction rs with
  | nil => rfl
  | cons r rs ih =>
    unfold SqsConsumer.processRecords
    cases hr : proc r <;> simp [List.filter_cons, hr, isOkB, ih]

/-- Helper: every record lands in exactly one of the two groups. -/
theorem processRecords_length (proc : SqsConsumer.SQSRecord → Except String Dict)
    (rs : List SqsConsumer.SQSRecord) :
    (SqsConsumer.processRecords proc rs).1.length
        + (SqsConsumer.processRecords proc rs).2.length = rs.length := by
  induction rs with
  | nil => rfl
  | cons r rs ih =>
    unfold SqsConsumer.processRecords
    cases hr : proc r <;> simp [hr] <;> omega

/-- Claim C2: the Batch Dispatcher processes every record (each lands
in exactly one of the two groups, in input order), and
batchItemFailures contains exactly the messageIds of the records whose
processing raised, and is omitted when no record failed. -/
theorem C2_theorem (jsonLoads : String → Option JVal) (env : SqsConsumer.SqsEnv)
    (records : List SqsConsumer.SQSRecord) :
    (SqsConsumer.lambda_handler jsonLoads env records).successful_messages.map Prod.fst
        = (records.filter (fun r => isOkB (SqsConsumer.process_message jsonLoads env r))).map
            SqsConsumer.SQSRecord.messageId
      ∧ (SqsConsumer.lambda_handler jsonLoads env records).failed_messages.map Prod.fst
          = (records.filter (fun r => !isOkB (SqsConsumer.process_message jsonLoads env r))).map
              SqsConsumer.SQSRecord.messageId
      ∧ (SqsConsumer.lambda_handler jsonLoads env records).processed
            + (SqsConsumer.lambda_handler jsonLoads env records).failed = records.length
      ∧ (SqsConsumer.lambda_handler jsonLoads env records).batchItemFailures
          = (if (records.filter
                (fun r => !isOkB (SqsConsumer.process_message jsonLoads env r))).isEmpty
             then none
             else some ((records.filter
                 (fun r => !isOkB (SqsConsumer.process_message jsonLoads env r))).map
                 SqsConsumer.SQSRecord.messageId)) := by
  have hfst := processRecords_fst_map (SqsConsumer.process_message jsonLoads env) records
  have hsnd := processRecords_snd_map (SqsConsumer.process_message jsonLoads env) records
  have hlen := processRecords_length (SqsConsumer.process_message jsonLoads env) records
  have hemp : (SqsConsumer.processRecords
        (SqsConsumer.process_message jsonLoads env) records).2.isEmpty
      = (records.filter
          (fun r => !isOkB (SqsConsumer.process_message jsonLoads env r))).isEmpty := by
    have h := hsnd
    cases ha : (SqsConsumer.processRecords
        (SqsConsumer.process_message jsonLoads env) records).2 with
    | nil =>
      rw [ha] at h
      cases hb : records.filter
          (fun r => !isOkB (SqsConsumer.process_message jsonLoads env r)) with
      | nil => rfl
      | cons b bs => rw [hb] at h; simp at h
    | cons a as =>
      rw [ha] at h
      cases hb : records.filter
          (fun r => !isOkB (SqsConsumer.process_message jsonLoads env r)) with
      | nil => rw [hb] at h; simp at h
      | cons b bs => rfl
  refine ⟨hfst, hsnd, hlen, ?_⟩
  show (if _ then none else some _) = _
  rw [hemp, hsnd]

/-- Helper: the notifier invocation never propagates an error (the ARN
may be missing, and any invoke failure is caught). -/
theorem invoke_slack_notifier_ok (env : SqsConsumer.SqsEnv) (notification : Dict) :
    SqsConsumer.invoke_slack_notifier env notification = Except.ok () := by
  unfold SqsConsumer.invoke_slack_notifier
  split
  · rfl
  · split <;> rfl

/-- Claim C3: a failure of the chat-delivery side effect is caught
inside `invoke_slack_notifier` (it always returns successfully), and
the result of `process_message` does not depend on the invoke outcome
at all, so a chat outage cannot change a record from succeeded to
failed. -/
theorem C3_theorem :
    (∀ (env : SqsConsumer.SqsEnv) (notification : Dict),
        SqsConsumer.invoke_slack_notifier env notification = Except.ok ())
      ∧ ∀ (jsonLoads : String → Option JVal) (arn : Option String) (now : String)
          (invoke invoke2 : String → JVal → Except String Nat)
          (record : SqsConsumer.SQSRecord),
          SqsConsumer.process_message jsonLoads ⟨arn, now, invoke⟩ record
            = SqsConsumer.process_message jsonLoads ⟨arn, now, invoke2⟩ record := by
  refine ⟨invoke_slack_notifier_ok, ?_⟩
  intro jsonLoads arn now invoke invoke2 record
  unfold SqsConsumer.process_message
  simp only [invoke_slack_notifier_ok]
  rfl

/-- Claim C4: when the body fails structured decode, the raw payload is
wrapped as an opaque message and the record is processed to completion,
through the generic handler, with no forwarding and a success result. -/
theorem C4_theorem (jsonLoads : String → Option JVal) (env : SqsConsumer.SqsEnv)
    (record : SqsConsumer.SQSRecord) (h : jsonLoads record.body = none) :
    SqsConsumer.process_message jsonLoads env record
      = Except.ok
          [("messageId", JVal.str record.messageId),
           ("processed_at", JVal.str env.now),
           ("notification_type", JVal.str "notification"),
           ("result", JVal.obj [("action", JVal.str "generic_processed"),
                                ("status", JVal.str "processed")])] := by
  unfold SqsConsumer.process_message
  rw [h]
  rfl

/-- Claim C4 witness: a non-JSON body against a failing chat endpoint
still yields a fully processed success result. -/
theorem C4_witness :
    SqsConsumer.process_message (fun _ => none)
        ⟨some "arn:slack-notifier", "2024-01-01T00:00:00+00:00", fun _ _ => Except.error "down"⟩
        ⟨"msg-1", "plain text payload"⟩
      = Except.ok
          [("messageId", JVal.str "msg-1"),
           ("processed_at", JVal.str "2024-01-01T00:00:00+00:00"),
           ("notification_type", JVal.str "notification"),
           ("result", JVal.obj [("action", JVal.str "generic_processed"),
                                ("status", JVal.str "processed")])] :=
  C4_theorem (fun _ => none)
    ⟨some "arn:slack-notifier", "2024-01-01T00:00:00+00:00", fun _ _ => Except.error "down"⟩
    ⟨"msg-1", "plain text payload"⟩ rfl

/-- Claim C10, counterexample: the two forwarding decisions differ on
the same event. For type "Payment Failed" with an empty detail mapping
the event processor forwards (exact type match) while the queue
consumer does not (no error/failure/alert substring, "failed" is not
"failure"). -/
theorem C10_counterexample :
    EventProcessor.should_notify_slack [] "Payment Failed" = true
      ∧ SqsConsumer.should_notify_slack
          [("type", JVal.str "Payment Failed"), ("source", JVal.str "custom.test"),
           ("timestamp", JVal.null), ("details", JVal.obj [])]
          = Except.ok false :=
  ⟨rfl, rfl⟩

/-- Claim C10, amended: the two implementations are not equivalent in
general (their type rules and case handling differ); they do agree, and
both forward, whenever `detail.priority` is exactly one of the
lowercase strings high, critical, urgent. -/
theorem C10_theorem (detail : Dict) (detail_type : String) (src ts : JVal) (p : String)
    (hp : dget detail "priority" = some (JVal.str p))
    (hmem : p = "high" ∨ p = "critical" ∨ p = "urgent") :
    EventProcessor.should_notify_slack detail detail_type = true
      ∧ SqsConsumer.should_notify_slack
          [("type", JVal.str detail_type), ("source", src),
           ("timestamp", ts), ("details", JVal.obj detail)]
          = Except.ok true := by
  constructor
  · unfold EventProcessor.should_notify_slack
    unfold dgetD jvalInStrList
    rw [hp]
    rcases hmem with rfl | rfl | rfl <;> rfl
  · unfold SqsConsumer.should_notify_slack
    have hd : dgetD [("type", JVal.str detail_type), ("source", src), ("timestamp", ts),
        ("details", JVal.obj detail)] "details" (JVal.obj []) = JVal.obj detail := rfl
    have ht : dgetD [("type", JVal.str detail_type), ("source", src), ("timestamp", ts),
        ("details", JVal.obj detail)] "type" (JVal.str "") = JVal.str detail_type := rfl
    rw [hd, ht]
    simp only [jLower, jGetD]
    rw [show dgetD detail "priority" (JVal.str "normal") = JVal.str p from by
      unfold dgetD; rw [hp]; rfl]
    simp only [jLower]
    rcases hmem with rfl | rfl | rfl <;> rfl

/-- Claim C10 witness: with priority "critical" both implementations
forward, on a type neither type rule matches. -/
theorem C10_witness :
    EventProcessor.should_notify_slack [("priority", JVal.str "critical")] "custom.event" = true
      ∧ SqsConsumer.should_notify_slack
          [("type", JVal.str "custom.event"), ("source", JVal.str "svc"),
           ("timestamp", JVal.null), ("details", JVal.obj [("priority", JVal.str "critical")])]
          = Except.ok true :=
  C10_theorem [("priority", JVal.str "critical")] "custom.event" (JVal.str "svc") JVal.null
    "critical" rfl (Or.inr (Or.inl rfl))
